import Mathlib

/-!
Shallow embedding of `src/anexos_simples.py`: the Simples Nacional
bracket/annex/rate resolution engine. Monetary values (`rbt12`,
`folha_12m`, the bracket boundaries and the nominal rates) are modelled
as rationals (`ℚ`); Python exceptions are modelled by `Except` with an
explicit error type distinguishing the four raise sites.
-/

/-- The five Annexes (`Anexo = Literal["I","II","III","IV","V"]`). -/
inductive Anexo
  | I | II | III | IV | V
deriving DecidableEq, Repr

/-- The four distinct failure modes of the Python code:
`ValueError` in `faixa_por_rbt12` (revenue out of range), `KeyError` for a
CNAE code missing from the table, `KeyError` for a missing (anexo, faixa)
rate entry, and the `IndexError` from indexing `info.anexos[0]` on an
empty candidate list. -/
inductive ErroResolucao
  | OutOfRange | NotFound | RateLookupError | IndexError
deriving DecidableEq, Repr

/-- `FAIXAS`: the six revenue brackets, `(faixa, ini, fim)`. -/
def FAIXAS : List (ℕ × ℚ × ℚ) :=
  [ (1, 0.00,        180000.00),
    (2, 180000.01,   360000.00),
    (3, 360000.01,   720000.00),
    (4, 720000.01,  1800000.00),
    (5, 1800000.01, 3600000.00),
    (6, 3600000.01, 4800000.00) ]

/-- `ALIQUOTAS_NOMINAIS`: nominal rate per (Anexo, faixa); `none` models a
missing dictionary entry. -/
def ALIQUOTAS_NOMINAIS : Anexo → ℕ → Option ℚ
  | .I,   1 => some 0.040 | .I,   2 => some 0.073 | .I,   3 => some 0.095
  | .I,   4 => some 0.107 | .I,   5 => some 0.143 | .I,   6 => some 0.190
  | .II,  1 => some 0.045 | .II,  2 => some 0.078 | .II,  3 => some 0.100
  | .II,  4 => some 0.112 | .II,  5 => some 0.147 | .II,  6 => some 0.300
  | .III, 1 => some 0.060 | .III, 2 => some 0.112 | .III, 3 => some 0.135
  | .III, 4 => some 0.160 | .III, 5 => some 0.210 | .III, 6 => some 0.330
  | .IV,  1 => some 0.045 | .IV,  2 => some 0.090 | .IV,  3 => some 0.102
  | .IV,  4 => some 0.140 | .IV,  5 => some 0.220 | .IV,  6 => some 0.330
  | .V,   1 => some 0.155 | .V,   2 => some 0.180 | .V,   3 => some 0.195
  | .V,   4 => some 0.205 | .V,   5 => some 0.230 | .V,   6 => some 0.305
  | _,    _ => none

/-- `CNAEInfo` dataclass. -/
structure CNAEInfo where
  cnae : String
  descricao : String
  anexos : List Anexo
  fator_r : Bool
  natureza : String
deriving DecidableEq, Repr

/-- A raw input record for `carregar_tabela_cnae`: the `cnae` key is
required, the other fields are optional (`dict.get` with a default). -/
structure RawItem where
  cnae : String
  descricao : Option String
  anexos : Option (List Anexo)
  fator_r : Option Bool
  natureza : Option String
deriving Repr

/-- Building one `CNAEInfo` from a raw record, with the defaults used in
`carregar_tabela_cnae` (`""`, `[]`, `False`, `"servicos"`). -/
def itemToInfo (item : RawItem) : CNAEInfo :=
  { cnae := item.cnae
    descricao := item.descricao.getD ""
    anexos := item.anexos.getD []
    fator_r := item.fator_r.getD false
    natureza := item.natureza.getD "servicos" }

/-- One assignment `tabela[item["cnae"]] = CNAEInfo(...)` on the dict,
modelled as a function update. -/
def insertItem (t : String → Option CNAEInfo) (item : RawItem) :
    String → Option CNAEInfo :=
  fun k => if k = item.cnae then some (itemToInfo item) else t k

/-- `carregar_tabela_cnae`: index the record list by CNAE code; later
records with the same code overwrite earlier ones. -/
def carregar_tabela_cnae (obj : List RawItem) : String → Option CNAEInfo :=
  obj.foldl insertItem (fun _ => none)

/-- The `for faixa, ini, fim in FAIXAS` scan of `faixa_por_rbt12`. -/
def findFaixa : List (ℕ × ℚ × ℚ) → ℚ → Except ErroResolucao ℕ
  | [], _ => .error .OutOfRange
  | (faixa, ini, fim) :: rest, rbt12 =>
      if ini ≤ rbt12 ∧ rbt12 ≤ fim then .ok faixa else findFaixa rest rbt12

/-- `faixa_por_rbt12`: first bracket whose closed interval contains the
revenue; `ValueError` (OutOfRange) when none does. -/
def faixa_por_rbt12 (rbt12 : ℚ) : Except ErroResolucao ℕ :=
  findFaixa FAIXAS rbt12

/-- `resolver_anexo_por_cnae`. -/
def resolver_anexo_por_cnae (cnae : String) (rbt12 : ℚ)
    (folha_12m : Option ℚ) (tabela_cnae : String → Option CNAEInfo)
    (anexo_forcado : Option Anexo) : Except ErroResolucao Anexo :=
  match anexo_forcado with
  | some a => .ok a
  | none =>
    match tabela_cnae cnae with
    | none => .error .NotFound
    | some info =>
      if info.anexos.length = 1 then
        match info.anexos with
        | [] => .error .IndexError
        | a :: _ => .ok a
      else if info.anexos.toFinset = ({.III, .V} : Finset Anexo) ∧
              info.fator_r = true then
        match folha_12m with
        | none => .ok .V
        | some folha =>
          if rbt12 ≤ 0 then .ok .V
          else if folha / rbt12 ≥ 0.28 then .ok .III else .ok .V
      else
        match info.anexos with
        | [] => .error .IndexError
        | a :: _ => .ok a

/-- `aliquota_nominal_por_anexo`: `(faixa, aliquota)` for an annex and a
revenue; a missing table entry raises the guarded `KeyError`. -/
def aliquota_nominal_por_anexo (anexo : Anexo) (rbt12 : ℚ) :
    Except ErroResolucao (ℕ × ℚ) :=
  match faixa_por_rbt12 rbt12 with
  | .error e => .error e
  | .ok faixa =>
    match ALIQUOTAS_NOMINAIS anexo faixa with
    | none => .error .RateLookupError
    | some aliq => .ok (faixa, aliq)

/-- The result dict of `obter_aliquota_por_cnae`. -/
structure ResolutionResult where
  anexo : Anexo
  faixa : ℕ
  aliquota_nominal : ℚ
  aliquota_nominal_pct : ℚ
  rbt12 : ℚ
  faturamento_mensal_medio : ℚ
deriving DecidableEq, Repr

/-- `obter_aliquota_por_cnae`. -/
def obter_aliquota_por_cnae (cnae : String) (rbt12 : ℚ)
    (folha_12m : Option ℚ) (tabela_cnae : String → Option CNAEInfo)
    (anexo_forcado : Option Anexo) : Except ErroResolucao ResolutionResult :=
  match resolver_anexo_por_cnae cnae rbt12 folha_12m tabela_cnae anexo_forcado with
  | .error e => .error e
  | .ok anexo =>
    match aliquota_nominal_por_anexo anexo rbt12 with
    | .error e => .error e
    | .ok (faixa, aliq_nom) =>
      .ok { anexo := anexo
            faixa := faixa
            aliquota_nominal := aliq_nom
            aliquota_nominal_pct := aliq_nom * 100
            rbt12 := rbt12
            faturamento_mensal_medio := rbt12 / 12 }

/-! ### Helper lemmas -/

/-- The bracket boundaries written as explicit fractions of cents. -/
lemma FAIXAS_eq :
    FAIXAS = [ (1, 0, 180000),
               (2, 18000001 / 100, 360000),
               (3, 36000001 / 100, 720000),
               (4, 72000001 / 100, 1800000),
               (5, 180000001 / 100, 3600000),
               (6, 360000001 / 100, 4800000) ] := by
  norm_num [FAIXAS]

/-- Closed form of the bracket scan on a revenue that is a whole number
of cents `k / 100`. -/
lemma faixa_por_rbt12_cents (k : ℕ) :
    faixa_por_rbt12 ((k : ℚ) / 100) =
      if k ≤ 18000000 then .ok 1
      else if k ≤ 36000000 then .ok 2
      else if k ≤ 72000000 then .ok 3
      else if k ≤ 180000000 then .ok 4
      else if k ≤ 360000000 then .ok 5
      else if k ≤ 480000000 then .ok 6
      else .error .OutOfRange := by
  have h0 : (0:ℚ) ≤ (k:ℚ) := Nat.cast_nonneg k
  rw [faixa_por_rbt12, FAIXAS_eq]
  simp only [findFaixa]
  by_cases h1 : k ≤ 18000000
  · have hq : (k:ℚ) ≤ 18000000 := by exact_mod_cast h1
    rw [if_pos ⟨by linarith, by linarith⟩, if_pos h1]
  · have hlo1 : (18000001:ℚ) ≤ (k:ℚ) := by exact_mod_cast (by omega : 18000001 ≤ k)
    rw [if_neg (by rintro ⟨ha, hb⟩; linarith), if_neg h1]
    by_cases h2 : k ≤ 36000000
    · have hq : (k:ℚ) ≤ 36000000 := by exact_mod_cast h2
      rw [if_pos ⟨by linarith, by linarith⟩, if_pos h2]
    · have hlo2 : (36000001:ℚ) ≤ (k:ℚ) := by exact_mod_cast (by omega : 36000001 ≤ k)
      rw [if_neg (by rintro ⟨ha, hb⟩; linarith), if_neg h2]
      by_cases h3 : k ≤ 72000000
      · have hq : (k:ℚ) ≤ 72000000 := by exact_mod_cast h3
        rw [if_pos ⟨by linarith, by linarith⟩, if_pos h3]
      · have hlo3 : (72000001:ℚ) ≤ (k:ℚ) := by exact_mod_cast (by omega : 72000001 ≤ k)
        rw [if_neg (by rintro ⟨ha, hb⟩; linarith), if_neg h3]
        by_cases h4 : k ≤ 180000000
        · have hq : (k:ℚ) ≤ 180000000 := by exact_mod_cast h4
          rw [if_pos ⟨by linarith, by linarith⟩, if_pos h4]
        · have hlo4 : (180000001:ℚ) ≤ (k:ℚ) := by
            exact_mod_cast (by omega : 180000001 ≤ k)
          rw [if_neg (by rintro ⟨ha, hb⟩; linarith), if_neg h4]
          by_cases h5 : k ≤ 360000000
          · have hq : (k:ℚ) ≤ 360000000 := by exact_mod_cast h5
            rw [if_pos ⟨by linarith, by linarith⟩, if_pos h5]
          · have hlo5 : (360000001:ℚ) ≤ (k:ℚ) := by
              exact_mod_cast (by omega : 360000001 ≤ k)
            rw [if_neg (by rintro ⟨ha, hb⟩; linarith), if_neg h5]
            by_cases h6 : k ≤ 480000000
            · have hq : (k:ℚ) ≤ 480000000 := by exact_mod_cast h6
              rw [if_pos ⟨by linarith, by linarith⟩, if_pos h6]
            · have hlo6 : (480000001:ℚ) ≤ (k:ℚ) := by
                exact_mod_cast (by omega : 480000001 ≤ k)
              rw [if_neg (by rintro ⟨ha, hb⟩; linarith), if_neg h6]

/-- Revenues outside the closed domain make the scan fall through. -/
lemma faixa_por_rbt12_out (r : ℚ) (h : r < 0 ∨ 4800000 < r) :
    faixa_por_rbt12 r = .error .OutOfRange := by
  rw [faixa_por_rbt12, FAIXAS_eq]
  simp only [findFaixa]
  rw [if_neg (by rintro ⟨ha, hb⟩; rcases h with h | h <;> linarith),
      if_neg (by rintro ⟨ha, hb⟩; rcases h with h | h <;> linarith),
      if_neg (by rintro ⟨ha, hb⟩; rcases h with h | h <;> linarith),
      if_neg (by rintro ⟨ha, hb⟩; rcases h with h | h <;> linarith),
      if_neg (by rintro ⟨ha, hb⟩; rcases h with h | h <;> linarith),
      if_neg (by rintro ⟨ha, hb⟩; rcases h with h | h <;> linarith)]

/-- Any bracket the scan returns is one of 1..6. -/
lemma faixa_por_rbt12_range (r : ℚ) (f : ℕ)
    (h : faixa_por_rbt12 r = .ok f) : 1 ≤ f ∧ f ≤ 6 := by
  rw [faixa_por_rbt12, FAIXAS] at h
  simp only [findFaixa] at h
  split_ifs at h <;> simp_all <;> omega

/-- The only error the scan can produce is OutOfRange. -/
lemma faixa_por_rbt12_err (r : ℚ) (e : ErroResolucao)
    (h : faixa_por_rbt12 r = .error e) : e = .OutOfRange := by
  rw [faixa_por_rbt12, FAIXAS] at h
  simp only [findFaixa] at h
  split_ifs at h
  all_goals simp_all

/-- The nominal-rate table is fully populated on 1..6 with rates in
`[0, 1)`. -/
lemma aliquotas_total (a : Anexo) (f : ℕ) (h1 : 1 ≤ f) (h2 : f ≤ 6) :
    ∃ q, ALIQUOTAS_NOMINAIS a f = some q ∧ 0 ≤ q ∧ q < 1 := by
  interval_cases f <;> cases a <;>
    exact ⟨_, rfl, by norm_num, by norm_num⟩

/-- Folding records none of which carry the code `c` leaves the table
unchanged at `c`. -/
lemma foldl_insertItem_notin (ys : List RawItem)
    (t : String → Option CNAEInfo) (c : String)
    (h : ∀ y ∈ ys, y.cnae ≠ c) :
    ys.foldl insertItem t c = t c := by
  induction ys generalizing t with
  | nil => rfl
  | cons y ys ih =>
    simp only [List.foldl_cons]
    rw [ih _ (fun z hz => h z (List.mem_cons_of_mem y hz))]
    simp only [insertItem]
    rw [if_neg (fun hc => h y (List.mem_cons_self y ys) hc.symm)]

/-! ### Claims -/

/-- C1 counterexample: the revenue 180000.005 lies inside the closed
domain [0, 4800000] yet `faixa_por_rbt12` assigns it no bracket — the
intervals of `FAIXAS` leave a gap between 180000.00 and 180000.01, so
they do not partition the full closed domain. -/
theorem C1_counterexample :
    (0:ℚ) ≤ 180000 + 1/200 ∧ ((180000 + 1/200 : ℚ) ≤ 4800000) ∧
    faixa_por_rbt12 (180000 + 1/200) = .error .OutOfRange := by
  refine ⟨by norm_num, by norm_num, ?_⟩
  rw [faixa_por_rbt12, FAIXAS_eq]
  simp only [findFaixa]
  norm_num

/-- C1 (amended): for every revenue that is a whole number of cents,
`k / 100` with `k ≤ 480000000`, `faixa_por_rbt12` returns a bracket in
1..6, and exactly one interval of `FAIXAS` contains the revenue — on
cent-valued revenues the six intervals partition [0, 4800000] with no
gaps and no overlaps. -/
theorem C1_bracket_partition (k : ℕ) (hk : k ≤ 480000000) :
    ∃ f, faixa_por_rbt12 ((k : ℚ) / 100) = .ok f ∧ 1 ≤ f ∧ f ≤ 6 ∧
      ∀ e ∈ FAIXAS, (e.2.1 ≤ (k : ℚ) / 100 ∧ (k : ℚ) / 100 ≤ e.2.2) ↔ e.1 = f := by
  have h0 : (0:ℚ) ≤ (k:ℚ) := Nat.cast_nonneg k
  rw [faixa_por_rbt12_cents k, FAIXAS_eq]
  by_cases h1 : k ≤ 18000000
  · have hq : (k:ℚ) ≤ 18000000 := by exact_mod_cast h1
    refine ⟨1, by simp [h1], by norm_num, by norm_num, ?_⟩
    intro e he
    simp only [List.mem_cons, List.not_mem_nil, or_false] at he
    rcases he with h | h | h | h | h | h <;> rw [h] <;> dsimp only <;>
      first
        | exact iff_of_true ⟨by linarith, by linarith⟩ rfl
        | exact iff_of_false (by rintro ⟨ha, hb⟩; linarith) (by omega)
  · have hlo : (18000001:ℚ) ≤ (k:ℚ) := by exact_mod_cast (by omega : 18000001 ≤ k)
    by_cases h2 : k ≤ 36000000
    · have hq : (k:ℚ) ≤ 36000000 := by exact_mod_cast h2
      refine ⟨2, by simp [h1, h2], by norm_num, by norm_num, ?_⟩
      intro e he
      simp only [List.mem_cons, List.not_mem_nil, or_false] at he
      rcases he with h | h | h | h | h | h <;> rw [h] <;> dsimp only <;>
        first
          | exact iff_of_true ⟨by linarith, by linarith⟩ rfl
          | exact iff_of_false (by rintro ⟨ha, hb⟩; linarith) (by omega)
    · have hlo : (36000001:ℚ) ≤ (k:ℚ) := by exact_mod_cast (by omega : 36000001 ≤ k)
      by_cases h3 : k ≤ 72000000
      · have hq : (k:ℚ) ≤ 72000000 := by exact_mod_cast h3
        refine ⟨3, by simp [h1, h2, h3], by norm_num, by norm_num, ?_⟩
        intro e he
        simp only [List.mem_cons, List.not_mem_nil, or_false] at he
        rcases he with h | h | h | h | h | h <;> rw [h] <;> dsimp only <;>
          first
            | exact iff_of_true ⟨by linarith, by linarith⟩ rfl
            | exact iff_of_false (by rintro ⟨ha, hb⟩; linarith) (by omega)
      · have hlo : (72000001:ℚ) ≤ (k:ℚ) := by
          exact_mod_cast (by omega : 72000001 ≤ k)
        by_cases h4 : k ≤ 180000000
        · have hq : (k:ℚ) ≤ 180000000 := by exact_mod_cast h4
          refine ⟨4, by simp [h1, h2, h3, h4], by norm_num, by norm_num, ?_⟩
          intro e he
          simp only [List.mem_cons, List.not_mem_nil, or_false] at he
          rcases he with h | h | h | h | h | h <;> rw [h] <;> dsimp only <;>
            first
              | exact iff_of_true ⟨by linarith, by linarith⟩ rfl
              | exact iff_of_false (by rintro ⟨ha, hb⟩; linarith) (by omega)
        · have hlo : (180000001:ℚ) ≤ (k:ℚ) := by
            exact_mod_cast (by omega : 180000001 ≤ k)
          by_cases h5 : k ≤ 360000000
          · have hq : (k:ℚ) ≤ 360000000 := by exact_mod_cast h5
            refine ⟨5, by simp [h1, h2, h3, h4, h5], by norm_num, by norm_num, ?_⟩
            intro e he
            simp only [List.mem_cons, List.not_mem_nil, or_false] at he
            rcases he with h | h | h | h | h | h <;> rw [h] <;> dsimp only <;>
              first
                | exact iff_of_true ⟨by linarith, by linarith⟩ rfl
                | exact iff_of_false (by rintro ⟨ha, hb⟩; linarith) (by omega)
          · have hlo : (360000001:ℚ) ≤ (k:ℚ) := by
              exact_mod_cast (by omega : 360000001 ≤ k)
            have hq : (k:ℚ) ≤ 480000000 := by exact_mod_cast hk
            refine ⟨6, by simp [h1, h2, h3, h4, h5, hk], by norm_num, by norm_num, ?_⟩
            intro e he
            simp only [List.mem_cons, List.not_mem_nil, or_false] at he
            rcases he with h | h | h | h | h | h <;> rw [h] <;> dsimp only <;>
              first
                | exact iff_of_true ⟨by linarith, by linarith⟩ rfl
                | exact iff_of_false (by rintro ⟨ha, hb⟩; linarith) (by omega)

/-- C1 witness: the boundary value 180000.01 (18000001 cents) resolves,
to the adjacent bracket 2. -/
theorem C1_bracket_partition_witness :
    18000001 ≤ 480000000 ∧
    (∃ f, faixa_por_rbt12 (((18000001 : ℕ) : ℚ) / 100) = .ok f ∧ 1 ≤ f ∧ f ≤ 6 ∧
      ∀ e ∈ FAIXAS,
        (e.2.1 ≤ ((18000001 : ℕ) : ℚ) / 100 ∧ ((18000001 : ℕ) : ℚ) / 100 ≤ e.2.2) ↔
          e.1 = f) :=
  ⟨by norm_num, C1_bracket_partition 18000001 (by norm_num)⟩

/-- C2 counterexample: 360000.005 is inside [0, 4800000] yet
`faixa_por_rbt12` fails with OutOfRange, so "fails iff the revenue is
outside [0, 4800000]" is false in the only-if direction. -/
theorem C2_counterexample :
    (0:ℚ) ≤ 360000 + 1/200 ∧ ((360000 + 1/200 : ℚ) ≤ 4800000) ∧
    faixa_por_rbt12 (360000 + 1/200) = .error .OutOfRange := by
  refine ⟨by norm_num, by norm_num, ?_⟩
  rw [faixa_por_rbt12, FAIXAS_eq]
  simp only [findFaixa]
  norm_num

/-- C2 (amended): `faixa_por_rbt12` fails with OutOfRange for every
revenue outside [0, 4800000], and succeeds for every whole-cent revenue
inside the closed range (it also fails, with the same OutOfRange error,
on non-cent revenues falling in a gap between adjacent intervals). -/
theorem C2_out_of_range :
    (∀ r : ℚ, (r < 0 ∨ 4800000 < r) → faixa_por_rbt12 r = .error .OutOfRange) ∧
    (∀ k : ℕ, k ≤ 480000000 → ∃ f, faixa_por_rbt12 ((k : ℚ) / 100) = .ok f) := by
  constructor
  · exact faixa_por_rbt12_out
  · intro k hk
    rw [faixa_por_rbt12_cents k]
    by_cases h1 : k ≤ 18000000
    · exact ⟨1, by simp [h1]⟩
    by_cases h2 : k ≤ 36000000
    · exact ⟨2, by simp [h1, h2]⟩
    by_cases h3 : k ≤ 72000000
    · exact ⟨3, by simp [h1, h2, h3]⟩
    by_cases h4 : k ≤ 180000000
    · exact ⟨4, by simp [h1, h2, h3, h4]⟩
    by_cases h5 : k ≤ 360000000
    · exact ⟨5, by simp [h1, h2, h3, h4, h5]⟩
    exact ⟨6, by simp [h1, h2, h3, h4, h5, hk]⟩

/-- C2 witness: a negative revenue fails with OutOfRange, and the upper
boundary 4800000.00 (in cents) succeeds. -/
theorem C2_out_of_range_witness :
    faixa_por_rbt12 (-1) = .error .OutOfRange ∧
    (∃ f, faixa_por_rbt12 (((480000000 : ℕ) : ℚ) / 100) = .ok f) :=
  ⟨C2_out_of_range.1 (-1) (Or.inl (by norm_num)),
   C2_out_of_range.2 480000000 (by norm_num)⟩

/-- C3: for a record whose candidate set is exactly {III, V} with the
Factor-R flag set and no override, `resolver_anexo_por_cnae` returns V
when the payroll is absent or the revenue is ≤ 0 (no error raised), and
otherwise returns III exactly when payroll / revenue ≥ 0.28 (the tie at
exactly 0.28 resolves to III) and V below. -/
theorem C3_factor_r (cnae : String) (rbt12 : ℚ) (folha_12m : Option ℚ)
    (tabela : String → Option CNAEInfo) (info : CNAEInfo)
    (hinfo : tabela cnae = some info)
    (hset : info.anexos.toFinset = {Anexo.III, Anexo.V})
    (hfr : info.fator_r = true) :
    ((folha_12m = none ∨ rbt12 ≤ 0) →
       resolver_anexo_por_cnae cnae rbt12 folha_12m tabela none = .ok .V) ∧
    (∀ folha, folha_12m = some folha → 0 < rbt12 →
       resolver_anexo_por_cnae cnae rbt12 folha_12m tabela none =
         .ok (if folha / rbt12 ≥ 0.28 then .III else .V)) := by
  have hcard : ({Anexo.III, Anexo.V} : Finset Anexo).card = 2 := rfl
  have hlen : info.anexos.length ≠ 1 := by
    intro h
    have hc := List.toFinset_card_le info.anexos
    rw [hset, hcard, h] at hc
    omega
  simp only [resolver_anexo_por_cnae, hinfo]
  rw [if_neg hlen, if_pos ⟨hset, hfr⟩]
  constructor
  · rintro (h | h)
    · rw [h]
    · cases folha_12m with
      | none => rfl
      | some folha =>
        dsimp only
        rw [if_pos h]
  · rintro folha rfl hpos
    dsimp only
    rw [if_neg (not_le.mpr hpos)]
    split_ifs <;> rfl

/-- The example classification records from the repository's own JSON
shape: an ambiguous III/V Factor-R code, a single-annex commerce code,
and a record with every optional field absent. -/
def exemploRegistros : List RawItem :=
  [ { cnae := "62.01-5-01", descricao := some "Desenvolvimento de software",
      anexos := some [.III, .V], fator_r := some true, natureza := some "servicos" },
    { cnae := "47.51-2-01", descricao := none,
      anexos := some [.I], fator_r := none, natureza := some "comercio" },
    { cnae := "00.00-0-00", descricao := none,
      anexos := none, fator_r := none, natureza := none } ]

/-- The classification table built from `exemploRegistros`. -/
def exemploTabela : String → Option CNAEInfo := carregar_tabela_cnae exemploRegistros

lemma exemploTabela_62 :
    exemploTabela "62.01-5-01" =
      some { cnae := "62.01-5-01", descricao := "Desenvolvimento de software",
             anexos := [.III, .V], fator_r := true, natureza := "servicos" } := by
  norm_num [exemploTabela, exemploRegistros, carregar_tabela_cnae, insertItem,
            itemToInfo, List.foldl]
  decide

lemma exemploTabela_47 :
    exemploTabela "47.51-2-01" =
      some { cnae := "47.51-2-01", descricao := "",
             anexos := [.I], fator_r := false, natureza := "comercio" } := by
  norm_num [exemploTabela, exemploRegistros, carregar_tabela_cnae, insertItem,
            itemToInfo, List.foldl]
  decide

lemma exemploTabela_00 :
    exemploTabela "00.00-0-00" =
      some { cnae := "00.00-0-00", descricao := "",
             anexos := [], fator_r := false, natureza := "servicos" } := by
  norm_num [exemploTabela, exemploRegistros, carregar_tabela_cnae, insertItem,
            itemToInfo, List.foldl]

lemma listIIIV_toFinset : ([Anexo.III, Anexo.V]).toFinset = {Anexo.III, Anexo.V} := rfl

/-- C3 witness: at payroll 28 and revenue 100 the ratio is exactly 0.28
and the resolver picks Annex III. -/
theorem C3_factor_r_witness :
    resolver_anexo_por_cnae "62.01-5-01" 100 (some 28) exemploTabela none = .ok .III := by
  have h := (C3_factor_r "62.01-5-01" 100 (some 28) exemploTabela _
      exemploTabela_62 listIIIV_toFinset rfl).2 28 rfl (by norm_num)
  rw [h, if_pos (by norm_num)]

/-- C4: an explicit override annex is returned unconditionally, for any
code (present in the table or not), any revenue and any payroll, with no
validation against the stored candidates. -/
theorem C4_override (cnae : String) (rbt12 : ℚ) (folha_12m : Option ℚ)
    (tabela : String → Option CNAEInfo) (a : Anexo) :
    resolver_anexo_por_cnae cnae rbt12 folha_12m tabela (some a) = .ok a := rfl

/-- C5: the nominal-rate table has an entry in [0, 1) for every one of
the 5 × 6 (Anexo, faixa) pairs, and consequently
`aliquota_nominal_por_anexo` can never fail with the rate-lookup error —
that branch is unreachable for every annex and every revenue. -/
theorem C5_rate_table_total :
    (∀ (a : Anexo) (f : ℕ), 1 ≤ f → f ≤ 6 →
        ∃ q, ALIQUOTAS_NOMINAIS a f = some q ∧ 0 ≤ q ∧ q < 1) ∧
    (∀ (a : Anexo) (r : ℚ),
        aliquota_nominal_por_anexo a r ≠ .error .RateLookupError) := by
  refine ⟨aliquotas_total, ?_⟩
  intro a r h
  unfold aliquota_nominal_por_anexo at h
  cases hf : faixa_por_rbt12 r with
  | error e =>
    rw [hf] at h
    dsimp only at h
    have := faixa_por_rbt12_err r e hf
    simp_all
  | ok f =>
    obtain ⟨h1, h6⟩ := faixa_por_rbt12_range r f hf
    obtain ⟨q, hq, -, -⟩ := aliquotas_total a f h1 h6
    rw [hf] at h
    dsimp only at h
    rw [hq] at h
    simp at h

/-- C5 witness: the (III, 6) entry exists and lies in [0, 1), and the
rate-lookup error branch is indeed not hit at Anexo V, revenue 100. -/
theorem C5_rate_table_total_witness :
    (∃ q, ALIQUOTAS_NOMINAIS .III 6 = some q ∧ 0 ≤ q ∧ q < 1) ∧
    aliquota_nominal_por_anexo .V 100 ≠ .error .RateLookupError :=
  ⟨C5_rate_table_total.1 .III 6 (by norm_num) (by norm_num),
   C5_rate_table_total.2 .V 100⟩

/-- C7: a record with a single candidate annex resolves to that annex
for every revenue and payroll, with no override. -/
theorem C7_single_candidate (cnae : String) (rbt12 : ℚ) (folha_12m : Option ℚ)
    (tabela : String → Option CNAEInfo) (info : CNAEInfo) (a : Anexo)
    (hinfo : tabela cnae = some info) (hsingle : info.anexos = [a]) :
    resolver_anexo_por_cnae cnae rbt12 folha_12m tabela none = .ok a := by
  simp only [resolver_anexo_por_cnae, hinfo, hsingle]
  norm_num

/-- C7 witness: the single-candidate commerce code resolves to Anexo I
at an arbitrary revenue and payroll. -/
theorem C7_single_candidate_witness :
    resolver_anexo_por_cnae "47.51-2-01" 123 (some 7) exemploTabela none = .ok .I :=
  C7_single_candidate _ _ _ _ _ _ exemploTabela_47 rfl

/-- C6: for a code mapping to a single candidate annex and no override,
`obter_aliquota_por_cnae` equals the manual composition of
`faixa_por_rbt12` with a direct `ALIQUOTAS_NOMINAIS` lookup for that
annex, including on the error paths. -/
theorem C6_roundtrip (cnae : String) (rbt12 : ℚ) (folha_12m : Option ℚ)
    (tabela : String → Option CNAEInfo) (info : CNAEInfo) (a : Anexo)
    (hinfo : tabela cnae = some info) (hsingle : info.anexos = [a]) :
    obter_aliquota_por_cnae cnae rbt12 folha_12m tabela none =
      match faixa_por_rbt12 rbt12 with
      | .error e => .error e
      | .ok faixa =>
        match ALIQUOTAS_NOMINAIS a faixa with
        | none => .error .RateLookupError
        | some aliq =>
          .ok { anexo := a, faixa := faixa, aliquota_nominal := aliq,
                aliquota_nominal_pct := aliq * 100, rbt12 := rbt12,
                faturamento_mensal_medio := rbt12 / 12 } := by
  have hres : resolver_anexo_por_cnae cnae rbt12 folha_12m tabela none = .ok a := by
    simp only [resolver_anexo_por_cnae, hinfo, hsingle]
    norm_num
  simp only [obter_aliquota_por_cnae, hres, aliquota_nominal_por_anexo]
  cases hf : faixa_por_rbt12 rbt12 with
  | error e => rfl
  | ok f =>
    cases hq : ALIQUOTAS_NOMINAIS a f with
    | none => dsimp only; rw [hq]
    | some q => dsimp only; rw [hq]

/-- C6 witness: revenue 500000 with the single-annex code gives bracket
3 and the Anexo I nominal rate 0.095, exactly as the manual
composition does. -/
theorem C6_roundtrip_witness :
    obter_aliquota_por_cnae "47.51-2-01" 500000 none exemploTabela none =
      .ok { anexo := .I, faixa := 3, aliquota_nominal := 0.095,
            aliquota_nominal_pct := 9.5, rbt12 := 500000,
            faturamento_mensal_medio := 500000 / 12 } := by
  have hf : faixa_por_rbt12 500000 = .ok 3 := by
    rw [faixa_por_rbt12, FAIXAS_eq]
    simp only [findFaixa]
    norm_num
  rw [C6_roundtrip "47.51-2-01" 500000 none exemploTabela _ .I exemploTabela_47 rfl, hf]
  dsimp only [ALIQUOTAS_NOMINAIS]
  norm_num

/-- C8: when the input sequence contains two records with the same code
(an `earlier` one in the prefix and `item` later), and no record after
`item` reuses the code, the built table maps the code to the record
built entirely from `item` — every field of the earlier record is
replaced (last-write-wins). -/
theorem C8_last_write_wins (xs ys : List RawItem) (earlier item : RawItem)
    (_hearlier : earlier ∈ xs) (_hdup : earlier.cnae = item.cnae)
    (hlater : ∀ y ∈ ys, y.cnae ≠ item.cnae) :
    carregar_tabela_cnae (xs ++ item :: ys) item.cnae = some (itemToInfo item) := by
  unfold carregar_tabela_cnae
  rw [List.foldl_append]
  simp only [List.foldl_cons]
  rw [foldl_insertItem_notin ys _ _ hlater]
  simp only [insertItem]
  simp

/-- An earlier record for the duplicate-code scenario. -/
def registroAntigo : RawItem :=
  { cnae := "11.11-1-11", descricao := some "old", anexos := some [.II],
    fator_r := some false, natureza := some "comercio" }

/-- A later record with the same code and every field different. -/
def registroNovo : RawItem :=
  { cnae := "11.11-1-11", descricao := some "new", anexos := some [.IV],
    fator_r := some true, natureza := some "industria" }

/-- C8 witness: loading the two duplicate records leaves only the later
record's fields in the table. -/
theorem C8_last_write_wins_witness :
    carregar_tabela_cnae [registroAntigo, registroNovo] "11.11-1-11" =
      some { cnae := "11.11-1-11", descricao := "new", anexos := [.IV],
             fator_r := true, natureza := "industria" } := by
  have h := C8_last_write_wins [registroAntigo] [] registroAntigo registroNovo
    (List.mem_singleton_self _) rfl (by simp)
  simpa [itemToInfo, registroNovo] using h

/-- C9: whenever `obter_aliquota_por_cnae` succeeds, the returned record
satisfies pct = rate × 100, average monthly revenue = rbt12 / 12, and
carries the input revenue unchanged. -/
theorem C9_result_fields (cnae : String) (rbt12 : ℚ) (folha_12m : Option ℚ)
    (tabela : String → Option CNAEInfo) (anexo_forcado : Option Anexo)
    (res : ResolutionResult)
    (h : obter_aliquota_por_cnae cnae rbt12 folha_12m tabela anexo_forcado = .ok res) :
    res.aliquota_nominal_pct = res.aliquota_nominal * 100 ∧
    res.faturamento_mensal_medio = res.rbt12 / 12 ∧
    res.rbt12 = rbt12 := by
  unfold obter_aliquota_por_cnae at h
  cases hr : resolver_anexo_por_cnae cnae rbt12 folha_12m tabela anexo_forcado with
  | error e => rw [hr] at h; simp at h
  | ok anexo =>
    rw [hr] at h
    dsimp only at h
    cases ha : aliquota_nominal_por_anexo anexo rbt12 with
    | error e => rw [ha] at h; simp at h
    | ok fa =>
      rw [ha] at h
      obtain ⟨faixa, aliq⟩ := fa
      dsimp only at h
      simp only [Except.ok.injEq] at h
      subst h
      exact ⟨rfl, rfl, rfl⟩

/-- The result record produced for an override of Anexo V at revenue
600000 (bracket 3, nominal rate 0.195). -/
def resExemploV : ResolutionResult :=
  { anexo := .V, faixa := 3, aliquota_nominal := 39/200,
    aliquota_nominal_pct := 39/2, rbt12 := 600000,
    faturamento_mensal_medio := 50000 }

lemma obter_forcadoV_eval :
    obter_aliquota_por_cnae "unknown" 600000 none exemploTabela (some .V) =
      .ok resExemploV := by
  have hf : faixa_por_rbt12 600000 = .ok 3 := by
    rw [faixa_por_rbt12, FAIXAS_eq]
    simp only [findFaixa]
    norm_num
  simp only [obter_aliquota_por_cnae, resolver_anexo_por_cnae,
    aliquota_nominal_por_anexo, hf]
  dsimp only [ALIQUOTAS_NOMINAIS]
  norm_num [resExemploV]

/-- C9 witness: the concrete successful resolution at revenue 600000
with annex V forced satisfies all three field relations. -/
theorem C9_result_fields_witness :
    resExemploV.aliquota_nominal_pct = resExemploV.aliquota_nominal * 100 ∧
    resExemploV.faturamento_mensal_medio = resExemploV.rbt12 / 12 ∧
    resExemploV.rbt12 = 600000 :=
  C9_result_fields "unknown" 600000 none exemploTabela (some .V) resExemploV
    obter_forcadoV_eval

/-- C10: a record with an empty candidate list (a shape the table
builder produces when the field is absent) makes the resolver hit the
final fallback, which indexes the empty list: the result is the
unguarded IndexError, not an annex and not one of the specified errors
(OutOfRange, NotFound, rate LookupError). -/
theorem C10_empty_candidates (cnae : String) (rbt12 : ℚ) (folha_12m : Option ℚ)
    (tabela : String → Option CNAEInfo) (info : CNAEInfo)
    (hinfo : tabela cnae = some info) (hempty : info.anexos = []) :
    resolver_anexo_por_cnae cnae rbt12 folha_12m tabela none = .error .IndexError := by
  simp only [resolver_anexo_por_cnae, hinfo, hempty]
  rw [if_neg (by simp : ¬(([] : List Anexo).length = 1))]
  rw [if_neg ?hguard]
  case hguard =>
    rintro ⟨hc, -⟩
    have h2 : ({Anexo.III, Anexo.V} : Finset Anexo).card = 2 := rfl
    rw [← hc] at h2
    simp at h2

/-- C10 witness: the loaded record with no `anexos` field resolves to
the IndexError. -/
theorem C10_empty_candidates_witness :
    resolver_anexo_por_cnae "00.00-0-00" 100 none exemploTabela none =
      .error .IndexError :=
  C10_empty_candidates _ _ _ _ _ exemploTabela_00 rfl
